import Mathlib

/-!
Verification of the multipart-upload core of a Go object-storage client SDK
(file `tos/multipart.go`): the part-upload pipeline `UploadPartV2` /
`UploadPartFromFile`, the completion assembler `CompleteMultipartUpload` /
`CompleteMultipartUploadV2`, and `AbortMultipartUpload`.

The Go code is shallowly embedded: pure data flow becomes Lean functions,
the streaming byte source becomes an explicit `Content` record (byte list,
current position, capability flags), and the network becomes an oracle
`Nat → AttemptPlan` giving each transfer attempt's outcome.  Helpers of the
repository that live outside the embedded file (`wrapReader`,
`tryResolveLength`, `NewCRC`, `checkCrc64`, the retry loop of the request
builder, the two retry classifiers, the `uploadedParts` comparator and
`isValidNames`) are modelled from the specification; each such definition
carries a doc comment starting with `Modelled from the spec:`.
-/

/-! ## Byte sources -/

/-- A readable byte source (Go `io.Reader`, possibly also `io.Seeker`):
the underlying bytes, the current read position, whether the value also
implements `io.Seeker`, whether a `Seek` call would report an error, and
whether the source structurally exposes its total size (file- or
buffer-backed). -/
structure Content where
  bytes : List Nat
  pos : Nat
  seekable : Bool
  seekFails : Bool
  lengthKnown : Bool
deriving DecidableEq, Repr

/-- The bytes a full read of the source would still deliver from its
current position. -/
def Content.remaining (c : Content) : List Nat :=
  c.bytes.drop c.pos

/-- Modelled from the spec: `tryResolveLength` (outside the embedded file)
resolves a missing content length structurally from the byte source — the
known total size of a file- or buffer-backed source — falling back to the
"unknown" marker `-1` otherwise. -/
def tryResolveLength : Option Content → Int
  | none => -1
  | some c => if c.lengthKnown then ((c.bytes.length : Int) - (c.pos : Int)) else -1

/-- Modelled from the spec: `wrapReader` (outside the embedded file) adapts
the byte source with progress reporting, rate limiting and the checksum
accumulator, transparently to read semantics and preserving the seek
capability; the instrumentation effect (every read byte fed to the
accumulator) is carried by `consume` below, so the wrapped source itself is
unchanged. -/
def wrapReader (c : Content) (_totalLength : Int) : Content := c

/-! ## CRC-64 rolling checksum

`NewCRC(DefaultCrcTable(), 0)` of the repository (outside the embedded
file) builds a 64-bit rolling checksum seeded with the constant `0` and
updated byte by byte through a process-wide table for a fixed polynomial.
Modelled from the spec as a concrete reflected CRC-64 with the ECMA
polynomial; the specific polynomial is irrelevant to the claims, only
"64-bit accumulator, fixed seed, incremental per-byte update" matters. -/

def crcPoly : Nat := 0xC96C5795D7870F42

/-- One reflected shift step of the CRC-64 accumulator. -/
def crcShift (c : Nat) : Nat :=
  if c % 2 == 1 then (c / 2) ^^^ crcPoly else c / 2

/-- Table entry for index `i`: eight shift steps. -/
def crcTableEntry (i : Nat) : Nat :=
  crcShift^[8] i

/-- Fold one byte into the accumulator. -/
def crc64Byte (crc b : Nat) : Nat :=
  crcTableEntry ((crc % 256) ^^^ (b % 256)) ^^^ (crc / 256)

/-- Fold a byte sequence into an accumulator value. -/
def crcUpdate (crc : Nat) (bs : List Nat) : Nat :=
  bs.foldl crc64Byte crc

/-- The checksum of a byte sequence from the fixed seed `0`. -/
def crc64 (bs : List Nat) : Nat :=
  crcUpdate 0 bs

/-! ## Completion assembler

`CompleteMultipartUpload` and `CompleteMultipartUploadV2` copy the
caller-supplied descriptors into `partsToComplete` via `.uploadedPart()`
and call `sort.Sort` on the slice before serializing it. -/

/-- A wire manifest entry: part number and entity tag (`uploadedPart`). -/
structure uploadedPart where
  PartNumber : Int
  ETag : String
deriving DecidableEq, Repr

/-- A caller-supplied uploaded-part descriptor (`UploadedPartV2`). -/
structure UploadedPartV2 where
  PartNumber : Int
  ETag : String
deriving DecidableEq, Repr

/-- The `.uploadedPart()` conversion applied to each descriptor. -/
def UploadedPartV2.uploadedPart (p : UploadedPartV2) : uploadedPart :=
  ⟨p.PartNumber, p.ETag⟩

/-- Modelled from the spec: the `uploadedParts.Less` comparator (outside
the embedded file) orders manifest entries ascending by part number and by
no other key. -/
def partLe (a b : uploadedPart) : Prop :=
  a.PartNumber ≤ b.PartNumber

instance : DecidableRel partLe := fun a b => Int.decLe a.PartNumber b.PartNumber

instance : IsTotal uploadedPart partLe := ⟨fun a b => Int.le_total a.PartNumber b.PartNumber⟩

instance : IsTrans uploadedPart partLe := ⟨fun _ _ _ h h2 => le_trans h h2⟩

/-- `sort.Sort(multipart.Parts)`: a comparison sort driven solely by the
`Less` comparator.  On the slice sizes at issue Go's `sort.Sort` runs its
insertion sort, which coincides with `List.insertionSort` under the same
comparator. -/
def sortParts (l : List uploadedPart) : List uploadedPart :=
  l.insertionSort partLe

/-- The completion manifest built by `CompleteMultipartUpload(V2)`: the
descriptors converted entrywise by `.uploadedPart()` and sorted by the
part-number comparator. -/
def manifestOf (parts : List UploadedPartV2) : List uploadedPart :=
  sortParts (parts.map UploadedPartV2.uploadedPart)

/-- Strict part-number order, used to compare sorted manifests with
pairwise-distinct part numbers. -/
def partLt (a b : uploadedPart) : Prop :=
  a.PartNumber < b.PartNumber

instance : IsAntisymm uploadedPart partLt :=
  ⟨fun _ _ h h2 => absurd (lt_trans h h2) (lt_irrefl _)⟩

/-! ## Errors and results -/

/-- The error kinds the embedded operations can surface. -/
inductive TosError where
  /-- bucket or key name validation failed (`isValidNames`) -/
  | invalidNames
  /-- `InputInvalidClientError`: missing part number or upload session id -/
  | inputInvalid
  /-- `Seek(0, io.SeekCurrent)` reported an error -/
  | seekError
  /-- `os.Open` reported an error -/
  | openError
  /-- transport failure surfaced after the retry policy stopped -/
  | statusError (status : Nat)
  /-- `checkCrc64` integrity failure: locally accumulated vs server value -/
  | crcMismatch (client server : Nat)
deriving DecidableEq, Repr

/-- Outcome of running a Go function: a value, a returned error, or a
runtime panic (nil-pointer dereference). -/
inductive GoResult (α : Type) where
  | ok (a : α)
  | err (e : TosError)
  | panicked
deriving DecidableEq, Repr

/-- Result record of `UploadPartV2` (the fields the claims are about). -/
structure UploadPartV2Output where
  PartNumber : Int
  ETag : String
  HashCrc64ecma : Nat
deriving DecidableEq, Repr

/-- Modelled from the spec: `isValidNames` (outside the embedded file)
checks the structural validity of bucket and key names before the core
logic runs; modelled as non-emptiness. -/
def isValidNames (bucket key : String) : Bool :=
  !bucket.isEmpty && !key.isEmpty

/-- Go `input == nil` on an embedded pointer. -/
def isNilPtr {α : Type} : Option α → Bool
  | none => true
  | some _ => false

/-! ## Retry coordinator -/

/-- The two failure classifiers (`StatusCodeClassifier` and
`ServerErrorClassifier`). -/
inductive classifier where
  | statusCode
  | serverError
deriving DecidableEq, Repr

/-- Modelled from the spec: whether a classifier retries a failed attempt
with the given HTTP status.  `StatusCodeClassifier` retries on a broad set
of status codes; `ServerErrorClassifier` only on the narrow class of pure
server faults (5xx). -/
def isRetryable : classifier → Nat → Bool
  | .statusCode, s => decide (500 ≤ s) || s == 408 || s == 429
  | .serverError, s => decide (500 ≤ s)

/-- Retry-policy selection of `UploadPartV2` (the code between creating
the wrapped content and issuing the request): the classifier starts as
`StatusCodeClassifier`; if the (wrapped) content is an `io.Seeker`, the
current position is captured (`Seek(0, io.SeekCurrent)`, whose error is
returned) and becomes the before-retry hook's target; if no hook was
installed the classifier degrades to `ServerErrorClassifier`. -/
def selectRetry : Option Content → Except TosError (Option Nat × classifier)
  | some c =>
    if c.seekable then
      if c.seekFails then .error .seekError
      else .ok (some c.pos, .statusCode)
    else .ok (none, .serverError)
  | none => .ok (none, .serverError)

/-! ## Transfer attempts -/

/-- What the server and transport do on one attempt: fail with a status after
the transport consumed `consumed` bytes of the body, or succeed (consuming
the whole remaining body) answering with an entity tag and the checksum
header value. -/
inductive AttemptPlan where
  | fails (consumed : Nat) (status : Nat)
  | succeeds (etag : String) (crcHeader : Nat)

/-- Mutable state threaded through the attempts: the (wrapped) byte source
and the checksum accumulator attached to it (when CRC is enabled). -/
structure XferState where
  content : Option Content
  checker : Option Nat
deriving DecidableEq, Repr

/-- The transport reads `k` bytes from the wrapped source: the position
advances and — this being the wrapper's instrumentation — every byte read
is folded into the attached checksum accumulator. -/
def consume (st : XferState) (k : Nat) : XferState :=
  match st.content with
  | none => st
  | some c =>
    let taken := (c.bytes.drop c.pos).take k
    { content := some { c with pos := c.pos + taken.length },
      checker := st.checker.map (fun acc => crcUpdate acc taken) }

/-- The before-retry hook installed by `UploadPartV2`: if the request
content is still a seeker, seek it back to the captured start position
(`seeker.Seek(start, io.SeekStart)`).  Without a hook the state is left
untouched. -/
def applyHook (hook : Option Nat) (st : XferState) : XferState :=
  match hook, st.content with
  | some start, some c =>
    if c.seekable then { st with content := some { c with pos := start } } else st
  | _, _ => st

/-- Bytes still to be sent from the current position. -/
def remainingSize (st : XferState) : Nat :=
  match st.content with
  | none => 0
  | some c => c.bytes.length - c.pos

/-- Outcome of the attempt loop: the transport result together with the
final value of the checksum accumulator. -/
inductive XferResult where
  | ok (etag : String) (crcHeader : Nat) (checker : Option Nat)
  | err (status : Nat) (checker : Option Nat)
deriving DecidableEq, Repr

/-- Observable request-level events of one `UploadPartV2` call. -/
inductive Event where
  /-- the content was wrapped, with this total length handed to the wrapper -/
  | wrapped (totalLength : Int)
  /-- a network attempt was issued with this declared content length -/
  | request (declaredLength : Int)
deriving DecidableEq, Repr

/-- Modelled from the spec: the retry loop of the request builder
(`WithRetry(onRetry, classifier).Request(...)`, outside the embedded
file).  Each attempt consults the oracle; a failure is retried while the
classifier approves and the caller-configured budget remains, invoking the
before-retry hook first; otherwise the last error is surfaced.  A success
consumes the whole remaining body.  Every attempt emits a `request` event
carrying the declared content length. -/
def runAttempts (oracle : Nat → AttemptPlan) (cls : classifier) (hook : Option Nat)
    (declared : Int) (attemptIdx : Nat) :
    Nat → XferState → XferResult × List Event
  | retriesLeft, st =>
    match oracle attemptIdx with
    | .succeeds etag crcHeader =>
      let st2 := consume st (remainingSize st)
      (.ok etag crcHeader st2.checker, [.request declared])
    | .fails k status =>
      let st2 := consume st k
      match retriesLeft with
      | 0 => (.err status st2.checker, [.request declared])
      | r + 1 =>
        if isRetryable cls status then
          let st3 := applyHook hook st2
          let next := runAttempts oracle cls hook declared (attemptIdx + 1) r st3
          (next.1, .request declared :: next.2)
        else
          (.err status st2.checker, [.request declared])

/-- Modelled from the spec: `checkCrc64` (outside the embedded file) — if
a checksum accumulator was attached, its final 64-bit value must equal the
server-reported checksum; a mismatch is the distinct integrity error; with
no accumulator the verification is skipped. -/
def checkCrc64 (serverCrc : Nat) : Option Nat → Option TosError
  | none => none
  | some c => if c == serverCrc then none else some (.crcMismatch c serverCrc)

/-! ## UploadPartV2 -/

/-- Input record of `UploadPartV2` (`UploadPartV2Input`). -/
structure UploadPartV2Input where
  Bucket : String
  Key : String
  UploadID : String
  PartNumber : Int
  Content : Option Content
  ContentLength : Int
deriving DecidableEq, Repr

/-- Client configuration relevant to the pipeline (`ClientV2`). -/
structure ClientCfg where
  enableCRC : Bool
deriving DecidableEq, Repr

/-- The part-upload pipeline `UploadPartV2`, mirroring the Go body line by
line.  The caller's input pointer is an `Option`; its fields (`Bucket`,
`Key`, `Content`, `ContentLength`) are dereferenced by `isValidNames` and
the local bindings before the `input == nil` guard runs, so a `none` input
panics at the first dereference.  The network is the `oracle`; `retries`
is the caller-configured retry budget.  Returns the Go result together
with the observable event trace. -/
def uploadPartV2 (cli : ClientCfg) (inputPtr : Option UploadPartV2Input)
    (oracle : Nat → AttemptPlan) (retries : Nat) :
    GoResult UploadPartV2Output × List Event :=
  match inputPtr with
  | none => (.panicked, [])
  | some input =>
    if !isValidNames input.Bucket input.Key then (.err .invalidNames, [])
    else
    let content := input.Content
    let contentLength := input.ContentLength
    if isNilPtr (some input) || input.PartNumber == 0 || input.UploadID == "" then
      (.err .inputInvalid, [])
    else
    let contentLength := if contentLength == 0 then tryResolveLength content else contentLength
    let checker : Option Nat := if cli.enableCRC then some 0 else none
    let content := content.map (fun c => wrapReader c contentLength)
    let wrapEvents : List Event :=
      match content with
      | some _ => [.wrapped contentLength]
      | none => []
    match selectRetry content with
    | .error e => (.err e, wrapEvents)
    | .ok (hook, cls) =>
      let st : XferState := { content := content, checker := checker }
      let run := runAttempts oracle cls hook input.ContentLength 0 retries st
      match run.1 with
      | .err status _ => (.err (.statusError status), wrapEvents ++ run.2)
      | .ok etag crcHeader checkerFinal =>
        match checkCrc64 crcHeader checkerFinal with
        | some e => (.err e, wrapEvents ++ run.2)
        | none =>
          (.ok { PartNumber := input.PartNumber, ETag := etag, HashCrc64ecma := crcHeader },
           wrapEvents ++ run.2)

/-- `UploadPartV2` with the `input == nil` disjunct removed from the guard,
otherwise identical.  Used to state that the guard, placed after the first
dereferences of `input`, can never fire. -/
def uploadPartV2NoNilGuard (cli : ClientCfg) (input : UploadPartV2Input)
    (oracle : Nat → AttemptPlan) (retries : Nat) :
    GoResult UploadPartV2Output × List Event :=
  if !isValidNames input.Bucket input.Key then (.err .invalidNames, [])
  else
  let content := input.Content
  let contentLength := input.ContentLength
  if input.PartNumber == 0 || input.UploadID == "" then
    (.err .inputInvalid, [])
  else
  let contentLength := if contentLength == 0 then tryResolveLength content else contentLength
  let checker : Option Nat := if cli.enableCRC then some 0 else none
  let content := content.map (fun c => wrapReader c contentLength)
  let wrapEvents : List Event :=
    match content with
    | some _ => [.wrapped contentLength]
    | none => []
  match selectRetry content with
  | .error e => (.err e, wrapEvents)
  | .ok (hook, cls) =>
    let st : XferState := { content := content, checker := checker }
    let run := runAttempts oracle cls hook input.ContentLength 0 retries st
    match run.1 with
    | .err status _ => (.err (.statusError status), wrapEvents ++ run.2)
    | .ok etag crcHeader checkerFinal =>
      match checkCrc64 crcHeader checkerFinal with
      | some e => (.err e, wrapEvents ++ run.2)
      | none =>
        (.ok { PartNumber := input.PartNumber, ETag := etag, HashCrc64ecma := crcHeader },
         wrapEvents ++ run.2)

/-! ## UploadPartFromFile -/

/-- Input record of `UploadPartFromFile` (`UploadPartFromFileInput`):
the basic part-upload fields plus the file path, the offset to seek to,
and the part size used as the content length. -/
structure UploadPartFromFileInput where
  Bucket : String
  Key : String
  UploadID : String
  PartNumber : Int
  FilePath : String
  Offset : Nat
  PartSize : Int
deriving DecidableEq, Repr

/-- Observable operations on the opened file handle. -/
inductive FileEvent where
  | openF
  | seekF
  | closeF
deriving DecidableEq, Repr

/-- How the file system answers `os.Open` and the subsequent `Seek`: the
open fails, or it yields a handle over these bytes whose seek may fail. -/
inductive FileOpenOutcome where
  | openFails
  | opened (fileBytes : List Nat) (seekWillFail : Bool)

/-- `UploadPartFromFile`: open the file (an error is returned as is), seek
to the requested offset (an error is returned as is), then delegate to
`uploadPartV2` with the file as content and `PartSize` as the content
length.  The trace records every operation performed on the opened
handle. -/
def uploadPartFromFile (cli : ClientCfg) (input : UploadPartFromFileInput)
    (fs : FileOpenOutcome) (oracle : Nat → AttemptPlan) (retries : Nat) :
    GoResult UploadPartV2Output × List FileEvent :=
  match fs with
  | .openFails => (.err .openError, [])
  | .opened fileBytes seekWillFail =>
    if seekWillFail then (.err .seekError, [.openF, .seekF])
    else
      let file : Content :=
        { bytes := fileBytes, pos := input.Offset, seekable := true,
          seekFails := false, lengthKnown := true }
      let sub := uploadPartV2 cli
        (some { Bucket := input.Bucket, Key := input.Key, UploadID := input.UploadID,
                PartNumber := input.PartNumber, Content := some file,
                ContentLength := input.PartSize })
        oracle retries
      (sub.1, [.openF, .seekF])

/-! ## AbortMultipartUpload -/

/-- Input record of `AbortMultipartUpload`. -/
structure AbortMultipartUploadInput where
  Bucket : String
  Key : String
  UploadID : String
deriving DecidableEq, Repr

/-- Modelled from the spec: the request path of `AbortMultipartUpload` —
`WithRetry(nil, ServerErrorClassifier{}).Request(..., DELETE, ...,
roundTripper(http.StatusNoContent))` (builder and round tripper outside
the embedded file).  The configured expectation is status 204; any other
status becomes an error, retried only when `ServerErrorClassifier`
approves and budget remains. -/
def abortAttempts (statuses : Nat → Nat) : Nat → Nat → GoResult Unit
  | attemptIdx, 0 =>
    let s := statuses attemptIdx
    if s == 204 then .ok () else .err (.statusError s)
  | attemptIdx, r + 1 =>
    let s := statuses attemptIdx
    if s == 204 then .ok ()
    else if isRetryable .serverError s then abortAttempts statuses (attemptIdx + 1) r
    else .err (.statusError s)

/-- `AbortMultipartUpload` of `ClientV2`: validate the names, then issue
the DELETE expecting 204 under the server-error-only retry policy. -/
def abortMultipartUpload (input : AbortMultipartUploadInput)
    (statuses : Nat → Nat) (retries : Nat) : GoResult Unit :=
  if !isValidNames input.Bucket input.Key then .err .invalidNames
  else abortAttempts statuses 0 retries

/-! ## Derived observations -/

/-- The bytes a full read would still deliver from an optional source. -/
def contentRemaining : Option Content → List Nat
  | none => []
  | some c => c.remaining

/-- Whether capturing the start position would succeed (no seek error). -/
def seekSucceeds : Option Content → Bool
  | none => true
  | some c => !(c.seekable && c.seekFails)

/-- The final checksum accumulator recorded in a transfer result. -/
def XferResult.checkerOf : XferResult → Option Nat
  | .ok _ _ chk => chk
  | .err _ chk => chk

/-- Number of network attempts recorded in a trace. -/
def countRequests (evs : List Event) : Nat :=
  (evs.filter (fun e => match e with | .request _ => true | _ => false)).length

/-- Turn a transfer result into the Go result of `UploadPartV2`: a
surfaced transport error, a checksum-verification error, or the success
record. -/
def uploadPartResult (input : UploadPartV2Input) : XferResult → GoResult UploadPartV2Output
  | .err status _ => .err (.statusError status)
  | .ok etag crcHeader checkerFinal =>
    match checkCrc64 crcHeader checkerFinal with
    | some e => .err e
    | none => .ok { PartNumber := input.PartNumber, ETag := etag, HashCrc64ecma := crcHeader }

/-- The body of `uploadPartV2` after the input validation has passed,
with the identity content wrapping already folded away.  Equal to
`uploadPartV2` on validation-passing inputs (`uploadPartV2_run`). -/
def uploadPartV2Core (cli : ClientCfg) (input : UploadPartV2Input)
    (oracle : Nat → AttemptPlan) (retries : Nat) :
    GoResult UploadPartV2Output × List Event :=
  let contentLength :=
    if input.ContentLength == 0 then tryResolveLength input.Content else input.ContentLength
  let checker : Option Nat := if cli.enableCRC then some 0 else none
  let wrapEvents : List Event :=
    match input.Content with
    | some _ => [.wrapped contentLength]
    | none => []
  match selectRetry input.Content with
  | .error e => (.err e, wrapEvents)
  | .ok (hook, cls) =>
    let run := runAttempts oracle cls hook input.ContentLength 0 retries
      ⟨input.Content, checker⟩
    (uploadPartResult input run.1, wrapEvents ++ run.2)

/-! ## Helper lemmas -/

theorem checkCrc64_cases (hdr : Nat) (chk : Option Nat) :
    checkCrc64 hdr chk = none ∨
      ∃ a, checkCrc64 hdr chk = some (.crcMismatch a hdr) := by
  cases chk with
  | none => exact Or.inl rfl
  | some c =>
    by_cases h : c == hdr
    · exact Or.inl (by simp [checkCrc64, h])
    · exact Or.inr ⟨c, by simp [checkCrc64, h]⟩

theorem uploadPartV2_run (cli : ClientCfg) (input : UploadPartV2Input)
    (oracle : Nat → AttemptPlan) (retries : Nat)
    (hnames : isValidNames input.Bucket input.Key = true)
    (hpn : input.PartNumber ≠ 0) (hup : input.UploadID ≠ "") :
    uploadPartV2 cli (some input) oracle retries =
      uploadPartV2Core cli input oracle retries := by
  have hguard :
      (isNilPtr (some input) || input.PartNumber == 0 || input.UploadID == "") = false := by
    simp [isNilPtr, hpn, hup]
  unfold uploadPartV2 uploadPartV2Core
  simp only [hnames, hguard, Bool.not_true, Bool.false_eq_true, if_false, wrapReader,
    Option.map_id']
  cases hsel : selectRetry input.Content with
  | error e => simp [hsel]
  | ok pair =>
    obtain ⟨hk, cls⟩ := pair
    simp only [hsel]
    cases hr : (runAttempts oracle cls hk input.ContentLength 0 retries
        ⟨input.Content, if cli.enableCRC then some 0 else none⟩).1 with
    | err s chk => simp [uploadPartResult, hr]
    | ok etag hdr chk =>
      rcases checkCrc64_cases hdr chk with hcc | ⟨a, hcc⟩ <;>
        simp [uploadPartResult, hr, hcc]

theorem consume_checker_none {st : XferState} (h : st.checker = none) (k : Nat) :
    (consume st k).checker = none := by
  unfold consume
  cases hc : st.content <;> simp [h]

theorem applyHook_checker (hook : Option Nat) (st : XferState) :
    (applyHook hook st).checker = st.checker := by
  unfold applyHook
  cases hook <;> cases hc : st.content <;> simp
  split <;> rfl

theorem runAttempts_checker_none (oracle : Nat → AttemptPlan) (cls : classifier)
    (hook : Option Nat) (d : Int) :
    ∀ (r i : Nat) (st : XferState), st.checker = none →
      ((runAttempts oracle cls hook d i r st).1).checkerOf = none := by
  intro r
  induction r with
  | zero =>
    intro i st h
    unfold runAttempts
    cases oracle i <;> simp [XferResult.checkerOf, consume_checker_none h]
  | succ r ih =>
    intro i st h
    unfold runAttempts
    cases oracle i with
    | succeeds etag hdr => simp [XferResult.checkerOf, consume_checker_none h]
    | fails k s =>
      by_cases hr : isRetryable cls s = true
      · simpa [hr] using ih (i + 1) (applyHook hook (consume st k))
          (by rw [applyHook_checker]; exact consume_checker_none h k)
      · simp [hr, XferResult.checkerOf, consume_checker_none h]

theorem runAttempts_trace_head (oracle : Nat → AttemptPlan) (cls : classifier)
    (hook : Option Nat) (d : Int) (i r : Nat) (st : XferState) :
    ∃ t, (runAttempts oracle cls hook d i r st).2 = Event.request d :: t := by
  unfold runAttempts
  cases oracle i with
  | succeeds etag hdr => exact ⟨[], rfl⟩
  | fails k s =>
    cases r with
    | zero => exact ⟨[], rfl⟩
    | succ r =>
      by_cases hr : isRetryable cls s = true
      · refine ⟨(runAttempts oracle cls hook d (i + 1) r (applyHook hook (consume st k))).2, ?_⟩
        simp [hr]
      · exact ⟨[], by simp [hr]⟩

theorem runAttempts_trace_all (oracle : Nat → AttemptPlan) (cls : classifier)
    (hook : Option Nat) (d : Int) :
    ∀ (r i : Nat) (st : XferState) (e : Event),
      e ∈ (runAttempts oracle cls hook d i r st).2 → e = Event.request d := by
  intro r
  induction r with
  | zero =>
    intro i st e he
    unfold runAttempts at he
    cases hi : oracle i <;> rw [hi] at he <;> simpa using he
  | succ r ih =>
    intro i st e he
    unfold runAttempts at he
    cases hi : oracle i with
    | succeeds etag hdr => rw [hi] at he; simpa using he
    | fails k s =>
      rw [hi] at he
      by_cases hr : isRetryable cls s = true
      · simp [hr] at he
        rcases he with he | he
        · exact he
        · exact ih (i + 1) _ e he
      · simp [hr] at he; exact he

theorem consume_all (st : XferState) :
    (consume st (remainingSize st)).checker =
      st.checker.map (fun a => crcUpdate a (contentRemaining st.content)) := by
  unfold consume remainingSize contentRemaining
  cases hc : st.content with
  | none => cases h : st.checker <;> simp [crcUpdate]
  | some c =>
    have htake : (c.bytes.drop c.pos).take (c.bytes.length - c.pos) = c.bytes.drop c.pos := by
      rw [← List.length_drop]
      exact List.take_length _
    simp [htake, Content.remaining]

theorem sorted_strict_of_nodup {l : List uploadedPart}
    (hs : List.Sorted partLe l) (hn : (l.map uploadedPart.PartNumber).Nodup) :
    List.Sorted partLt l := by
  have hne : l.Pairwise (fun a b : uploadedPart => a.PartNumber ≠ b.PartNumber) :=
    List.pairwise_map.mp hn
  exact (hs.and hne).imp (fun h => lt_of_le_of_ne h.1 h.2)

theorem runAttempts_first_fails_noretry (oracle : Nat → AttemptPlan) (cls : classifier)
    (hook : Option Nat) (d : Int) (r : Nat) (st : XferState) (k s : Nat)
    (h0 : oracle 0 = .fails k s) (hnr : isRetryable cls s = false) :
    runAttempts oracle cls hook d 0 r st =
      (.err s (consume st k).checker, [.request d]) := by
  unfold runAttempts
  rw [h0]
  cases r with
  | zero => rfl
  | succ r => simp [hnr]

theorem runAttempts_first_succeeds (oracle : Nat → AttemptPlan) (cls : classifier)
    (hook : Option Nat) (d : Int) (r : Nat) (st : XferState) (etag : String) (hdr : Nat)
    (h0 : oracle 0 = .succeeds etag hdr) :
    runAttempts oracle cls hook d 0 r st =
      (.ok etag hdr ((consume st (remainingSize st)).checker), [.request d]) := by
  unfold runAttempts
  rw [h0]

theorem selectRetry_ok_of_seekSucceeds (copt : Option Content)
    (h : seekSucceeds copt = true) :
    ∃ hk cls, selectRetry copt = .ok (hk, cls) := by
  cases copt with
  | none => exact ⟨none, .serverError, rfl⟩
  | some c =>
    have h2 : (c.seekable && c.seekFails) = false := by
      have h3 : (!(c.seekable && c.seekFails)) = true := h
      revert h3
      cases c.seekable && c.seekFails <;> simp
    cases hs : c.seekable with
    | false => exact ⟨none, .serverError, by simp [selectRetry, hs]⟩
    | true =>
      have hf : c.seekFails = false := by
        rw [hs] at h2
        simpa using h2
      exact ⟨some c.pos, .statusCode, by simp [selectRetry, hs, hf]⟩

theorem uploadPartV2Core_eq (cli : ClientCfg) (input : UploadPartV2Input)
    (oracle : Nat → AttemptPlan) (retries : Nat) (hk : Option Nat) (cls : classifier)
    (hsel : selectRetry input.Content = .ok (hk, cls)) :
    uploadPartV2Core cli input oracle retries =
      (uploadPartResult input
         (runAttempts oracle cls hk input.ContentLength 0 retries
            ⟨input.Content, if cli.enableCRC then some 0 else none⟩).1,
       (match input.Content with
        | some _ => [Event.wrapped (if input.ContentLength == 0 then
            tryResolveLength input.Content else input.ContentLength)]
        | none => []) ++
       (runAttempts oracle cls hk input.ContentLength 0 retries
          ⟨input.Content, if cli.enableCRC then some 0 else none⟩).2) := by
  unfold uploadPartV2Core
  simp only [hsel]

theorem uploadPartResult_ne_inputInvalid (input : UploadPartV2Input) (x : XferResult) :
    uploadPartResult input x ≠ .err .inputInvalid := by
  cases x with
  | err s chk => simp [uploadPartResult]
  | ok e hdr chk =>
    rcases checkCrc64_cases hdr chk with hcc | ⟨a, hcc⟩ <;> simp [uploadPartResult, hcc]

theorem uploadPartResult_no_mismatch_of_none (input : UploadPartV2Input) (x : XferResult)
    (h : x.checkerOf = none) (a b : Nat) :
    uploadPartResult input x ≠ .err (.crcMismatch a b) := by
  cases x with
  | err s chk => simp [uploadPartResult]
  | ok e hdr chk =>
    have h2 : chk = none := h
    subst h2
    simp [uploadPartResult, checkCrc64]

/-! ## Claims -/

/-- C1 (amended): the completion manifest built by `CompleteMultipartUpload`
and `CompleteMultipartUploadV2` is exactly the input multiset of descriptors
sorted ascending by part number — a permutation of the entrywise-converted
input (nothing dropped, nothing added, duplicates kept), sorted by the
part-number comparator — and when the part numbers are pairwise distinct,
any two permutations of the same descriptors yield the identical manifest.
(With duplicate part numbers carrying distinct entity tags the relative
order of the equal-numbered entries follows the input order, so two
permutations need not agree; see the counterexample.) -/
theorem completeMultipartUpload_manifest_sorted (l₁ l₂ : List UploadedPartV2)
    (hperm : l₁.Perm l₂)
    (hnodup : (l₁.map UploadedPartV2.PartNumber).Nodup) :
    (manifestOf l₁).Perm (l₁.map UploadedPartV2.uploadedPart) ∧
    List.Sorted partLe (manifestOf l₁) ∧
    manifestOf l₁ = manifestOf l₂ := by
  have hperm1 : (manifestOf l₁).Perm (l₁.map UploadedPartV2.uploadedPart) :=
    List.perm_insertionSort partLe _
  have hs1 : List.Sorted partLe (manifestOf l₁) := List.sorted_insertionSort partLe _
  refine ⟨hperm1, hs1, ?_⟩
  have hperm2 : (manifestOf l₂).Perm (l₂.map UploadedPartV2.uploadedPart) :=
    List.perm_insertionSort partLe _
  have hs2 : List.Sorted partLe (manifestOf l₂) := List.sorted_insertionSort partLe _
  have hmapperm : (l₁.map UploadedPartV2.uploadedPart).Perm (l₂.map UploadedPartV2.uploadedPart) :=
    hperm.map _
  have hp : (manifestOf l₁).Perm (manifestOf l₂) :=
    hperm1.trans (hmapperm.trans hperm2.symm)
  have hn1 : ((manifestOf l₁).map uploadedPart.PartNumber).Nodup := by
    refine ((hperm1.map uploadedPart.PartNumber).nodup_iff).mpr ?_
    rw [List.map_map]
    exact hnodup
  have hn2 : ((manifestOf l₂).map uploadedPart.PartNumber).Nodup :=
    ((hp.map uploadedPart.PartNumber).nodup_iff).mp hn1
  exact List.eq_of_perm_of_sorted hp
    (sorted_strict_of_nodup hs1 hn1) (sorted_strict_of_nodup hs2 hn2)

/-- Witness for C1 at the spec's own example: the descriptors
`(2,"t2"),(1,"t1"),(3,"t3")` in two different orders produce the same
manifest. -/
theorem completeMultipartUpload_manifest_sorted_witness :
    manifestOf [⟨2, "t2"⟩, ⟨1, "t1"⟩, ⟨3, "t3"⟩] =
      manifestOf [⟨1, "t1"⟩, ⟨2, "t2"⟩, ⟨3, "t3"⟩] :=
  (completeMultipartUpload_manifest_sorted
    [⟨2, "t2"⟩, ⟨1, "t1"⟩, ⟨3, "t3"⟩] [⟨1, "t1"⟩, ⟨2, "t2"⟩, ⟨3, "t3"⟩]
    (by decide) (by decide)).2.2

/-- Counterexample for C1 as frozen: two permutations of the same
descriptor multiset with a duplicated part number and distinct entity tags
yield different manifests, so "any two permutations yield the identical
manifest" fails once duplicates are kept. -/
theorem completeMultipartUpload_manifest_dup_counterexample :
    ([⟨1, "a"⟩, ⟨1, "b"⟩] : List UploadedPartV2).Perm [⟨1, "b"⟩, ⟨1, "a"⟩] ∧
    manifestOf [⟨1, "a"⟩, ⟨1, "b"⟩] ≠ manifestOf [⟨1, "b"⟩, ⟨1, "a"⟩] := by
  constructor
  · decide
  · decide

/-- C6: an `UploadPartV2` input with a zero part number or an empty
upload-session id is rejected with `InputInvalidClientError` immediately:
the returned trace is empty, so no network request was issued. -/
theorem uploadPartV2_rejects_missing_part_or_upload_id
    (cli : ClientCfg) (input : UploadPartV2Input) (oracle : Nat → AttemptPlan)
    (retries : Nat)
    (hnames : isValidNames input.Bucket input.Key = true)
    (h : input.PartNumber = 0 ∨ input.UploadID = "") :
    uploadPartV2 cli (some input) oracle retries = (.err .inputInvalid, []) := by
  unfold uploadPartV2
  rcases h with h | h <;> simp [hnames, isNilPtr, h]

/-- Witness for C6: a concrete call with an empty upload id returns the
client-input error with an empty trace. -/
theorem uploadPartV2_rejects_missing_part_or_upload_id_witness :
    uploadPartV2 ⟨false⟩ (some ⟨"b", "k", "", 1, none, 5⟩)
      (fun _ => .succeeds "e" 0) 2 = (.err .inputInvalid, []) :=
  uploadPartV2_rejects_missing_part_or_upload_id
    ⟨false⟩ ⟨"b", "k", "", 1, none, 5⟩ (fun _ => .succeeds "e" 0) 2
    (by decide) (Or.inr rfl)

/-- C9: the `input == nil` guard of `UploadPartV2` is unreachable as
ordered: a nil input panics at the earlier dereferences (`isValidNames`
on `input.Bucket`/`input.Key` and the bindings of `input.Content` and
`input.ContentLength`), never reaching the guard and never producing the
guarded error, and on every non-nil input the function behaves exactly as
the same body with the nil disjunct removed. -/
theorem uploadPartV2_nil_guard_unreachable :
    (∀ (cli : ClientCfg) (oracle : Nat → AttemptPlan) (retries : Nat),
       uploadPartV2 cli none oracle retries = (.panicked, [])) ∧
    (∀ (cli : ClientCfg) (input : UploadPartV2Input) (oracle : Nat → AttemptPlan)
       (retries : Nat),
       uploadPartV2 cli (some input) oracle retries =
         uploadPartV2NoNilGuard cli input oracle retries) ∧
    (∀ e : TosError, (GoResult.panicked : GoResult UploadPartV2Output) ≠ .err e) := by
  refine ⟨fun _ _ _ => rfl, fun cli input oracle retries => rfl, fun e h => by cases h⟩

/-- C10: `UploadPartFromFile` never closes the file handle it opened —
on the seek-failure path, on an upload failure, and on success alike the
recorded file operations contain no close. -/
theorem uploadPartFromFile_never_closes_file
    (cli : ClientCfg) (input : UploadPartFromFileInput) (fs : FileOpenOutcome)
    (oracle : Nat → AttemptPlan) (retries : Nat) :
    FileEvent.closeF ∉ (uploadPartFromFile cli input fs oracle retries).2 := by
  unfold uploadPartFromFile
  cases fs with
  | openFails => simp
  | opened fileBytes seekWillFail =>
    cases seekWillFail <;> simp


/-- C2: retry-policy selection of `UploadPartV2` — exactly when the
(wrapped) content exposes the seek capability and capturing the current
position succeeds, that captured position becomes the before-retry hook's
target and the broad `StatusCodeClassifier` is selected; for a
non-seekable or absent content no hook is installed and the stricter
`ServerErrorClassifier` is selected.  The installed hook seeks a seekable
content back to exactly the captured position; the strict classifier
retries only server-fault statuses (5xx), so a call with a non-seekable
source surfaces a failure outside that class after a single network
attempt. -/
theorem uploadPartV2_retry_policy (c : Content) (chk : Option Nat) :
    (c.seekable = true → c.seekFails = false →
       selectRetry (some c) = .ok (some c.pos, .statusCode)) ∧
    (c.seekable = false → selectRetry (some c) = .ok (none, .serverError)) ∧
    selectRetry (none : Option Content) = .ok (none, .serverError) ∧
    (∀ c2 : Content, c2.seekable = true →
       applyHook (some c.pos) ⟨some c2, chk⟩ =
         ⟨some { c2 with pos := c.pos }, chk⟩) ∧
    (∀ s : Nat, isRetryable .serverError s = true → 500 ≤ s) ∧
    (∀ (cli : ClientCfg) (input : UploadPartV2Input) (oracle : Nat → AttemptPlan)
       (retries k s : Nat),
       isValidNames input.Bucket input.Key = true →
       input.PartNumber ≠ 0 → input.UploadID ≠ "" →
       input.Content = some c → c.seekable = false →
       oracle 0 = .fails k s → isRetryable .serverError s = false →
       (uploadPartV2 cli (some input) oracle retries).1 = .err (.statusError s) ∧
       countRequests (uploadPartV2 cli (some input) oracle retries).2 = 1) := by
  refine ⟨?s1, ?s2, rfl, ?s4, ?s5, ?s6⟩
  case s1 => intro hs hf; simp [selectRetry, hs, hf]
  case s2 => intro hs; simp [selectRetry, hs]
  case s4 => intro c2 hs2; simp [applyHook, hs2]
  case s5 => intro s h; exact of_decide_eq_true h
  case s6 =>
    intro cli input oracle retries k s hnames hpn hup hc hsk h0 hnr
    rw [uploadPartV2_run cli input oracle retries hnames hpn hup,
        uploadPartV2Core_eq cli input oracle retries none .serverError
          (by rw [hc]; simp [selectRetry, hsk]),
        runAttempts_first_fails_noretry oracle .serverError none input.ContentLength
          retries _ k s h0 hnr]
    refine ⟨rfl, ?_⟩
    rw [hc]
    rfl

/-- Witness for C2: a seekable one-byte source at position 0 selects the
captured-position hook with the broad classifier; a non-seekable source
with a 404 first failure is surfaced without a second attempt. -/
theorem uploadPartV2_retry_policy_witness :
    selectRetry (some ⟨[7], 0, true, false, true⟩) = .ok (some 0, .statusCode) ∧
    (uploadPartV2 ⟨false⟩
        (some ⟨"b", "k", "u", 1, some ⟨[9], 0, false, false, true⟩, 1⟩)
        (fun _ => .fails 0 404) 5).1 = .err (.statusError 404) := by
  constructor
  · exact (uploadPartV2_retry_policy ⟨[7], 0, true, false, true⟩ none).1 rfl rfl
  · exact ((uploadPartV2_retry_policy ⟨[9], 0, false, false, true⟩ none).2.2.2.2.2
      ⟨false⟩ ⟨"b", "k", "u", 1, some ⟨[9], 0, false, false, true⟩, 1⟩
      (fun _ => .fails 0 404) 5 0 404
      (by decide) (by decide) (by decide) rfl rfl rfl (by decide)).1

/-- Client with CRC verification enabled. -/
def crcClient : ClientCfg := ⟨true⟩

/-- A one-byte seekable part upload with a declared length of 1. -/
def retriedOneByteInput : UploadPartV2Input :=
  ⟨"b", "k", "u", 1, some ⟨[7], 0, true, false, true⟩, 1⟩

/-- A network in which the first attempt consumes the one-byte body and
fails with 500, and the retry succeeds; the server reports the checksum of
the byte stream it actually stored (`crc64 [7]`). -/
def retriedOneByteOracle : Nat → AttemptPlan
  | 0 => .fails 1 500
  | _ => .succeeds "etag7" (crc64 [7])

/-- C3 (code bug): the checksum accumulator of `UploadPartV2` is created
once before the first attempt and the before-retry hook rewinds only the
byte source, never reseeding the accumulator, so a retried attempt
continues accumulating across the failed attempt's bytes: after a
consumed-then-failed first attempt and a successful retry of the one-byte
body, the accumulator holds `crc64 [7, 7]` — the concatenation of both
attempts' streams — which differs from the retried attempt's own checksum
`crc64 [7]`, and the call spuriously fails with the integrity error even
though the transfer succeeded. -/
theorem uploadPartV2_checker_accumulates_across_attempts :
    (uploadPartV2 crcClient (some retriedOneByteInput) retriedOneByteOracle 1).1 =
      .err (.crcMismatch (crc64 ([7] ++ [7])) (crc64 [7])) ∧
    crc64 ([7] ++ [7]) ≠ crc64 [7] := by
  constructor
  · decide
  · decide

/-- An input whose declared content length is negative and whose content
is absent (so the length cannot be resolved structurally). -/
def negLenInput : UploadPartV2Input := ⟨"b", "k", "u", 1, none, -1⟩

/-- A network that succeeds on every attempt. -/
def alwaysSucceedOracle : Nat → AttemptPlan := fun _ => .succeeds "e" 0

/-- C4 counterexample: an `UploadPartV2` input with content length `-1`
(unresolvable) does not fail with the client-input error — the call
proceeds to the network (the trace records a request) and returns the
transport's success. -/
theorem uploadPartV2_negative_length_counterexample :
    (uploadPartV2 ⟨false⟩ (some negLenInput) alwaysSucceedOracle 0).1 = .ok ⟨1, "e", 0⟩ ∧
    (uploadPartV2 ⟨false⟩ (some negLenInput) alwaysSucceedOracle 0).2 =
      [.request (-1)] := by
  constructor
  · rfl
  · rfl

/-- C4 (amended): `UploadPartV2` performs no content-length validation:
with a zero-or-negative declared length that cannot be resolved from the
source, the call still issues a network request (carrying the declared
length) and its result is never the client-input error — that error is
reserved for a zero part number or empty upload id. -/
theorem uploadPartV2_no_length_validation
    (cli : ClientCfg) (input : UploadPartV2Input) (oracle : Nat → AttemptPlan)
    (retries : Nat)
    (hnames : isValidNames input.Bucket input.Key = true)
    (hpn : input.PartNumber ≠ 0) (hup : input.UploadID ≠ "")
    (hseek : seekSucceeds input.Content = true)
    (hlen : input.ContentLength ≤ 0)
    (hres : tryResolveLength input.Content = -1) :
    Event.request input.ContentLength ∈ (uploadPartV2 cli (some input) oracle retries).2 ∧
    (uploadPartV2 cli (some input) oracle retries).1 ≠ .err .inputInvalid := by
  obtain ⟨hk, cls, hsel⟩ := selectRetry_ok_of_seekSucceeds input.Content hseek
  rw [uploadPartV2_run cli input oracle retries hnames hpn hup,
      uploadPartV2Core_eq cli input oracle retries hk cls hsel]
  constructor
  · obtain ⟨t, ht⟩ := runAttempts_trace_head oracle cls hk input.ContentLength 0 retries
      ⟨input.Content, if cli.enableCRC then some 0 else none⟩
    have hmem : Event.request input.ContentLength ∈
        (runAttempts oracle cls hk input.ContentLength 0 retries
          ⟨input.Content, if cli.enableCRC then some 0 else none⟩).2 := by
      rw [ht]; exact List.mem_cons_self _ _
    exact List.mem_append_right _ hmem
  · exact uploadPartResult_ne_inputInvalid input _

/-- Witness for C4 (amended) at the concrete negative-length input. -/
theorem uploadPartV2_no_length_validation_witness :
    Event.request (-1) ∈ (uploadPartV2 ⟨false⟩ (some negLenInput) alwaysSucceedOracle 0).2 ∧
    (uploadPartV2 ⟨false⟩ (some negLenInput) alwaysSucceedOracle 0).1 ≠
      .err .inputInvalid :=
  uploadPartV2_no_length_validation ⟨false⟩ negLenInput alwaysSucceedOracle 0
    (by decide) (by decide) (by decide) rfl (by decide) rfl

/-- C5: checksum verification of `UploadPartV2` — with CRC disabled for
the client no accumulator exists, the verification is skipped and no
integrity error is possible for any network behaviour; with CRC enabled
and a transport-successful first attempt, the accumulator's final value
(the checksum of the bytes streamed out) is compared against the
server-reported checksum: on equality the call succeeds and returns that
checksum in the result, on inequality it returns the distinct integrity
error despite the HTTP success. -/
theorem uploadPartV2_checksum_verification
    (cli : ClientCfg) (input : UploadPartV2Input) (oracle : Nat → AttemptPlan)
    (retries : Nat) (etag : String) (crcHeader : Nat)
    (hnames : isValidNames input.Bucket input.Key = true)
    (hpn : input.PartNumber ≠ 0) (hup : input.UploadID ≠ "")
    (hseek : seekSucceeds input.Content = true)
    (hfirst : oracle 0 = .succeeds etag crcHeader) :
    (cli.enableCRC = false →
       (uploadPartV2 cli (some input) oracle retries).1 =
         .ok ⟨input.PartNumber, etag, crcHeader⟩ ∧
       ∀ (oracle2 : Nat → AttemptPlan) (r2 a b : Nat),
         (uploadPartV2 cli (some input) oracle2 r2).1 ≠ .err (.crcMismatch a b)) ∧
    (cli.enableCRC = true →
       (crcUpdate 0 (contentRemaining input.Content) = crcHeader →
          (uploadPartV2 cli (some input) oracle retries).1 =
            .ok ⟨input.PartNumber, etag, crcHeader⟩) ∧
       (crcUpdate 0 (contentRemaining input.Content) ≠ crcHeader →
          (uploadPartV2 cli (some input) oracle retries).1 =
            .err (.crcMismatch (crcUpdate 0 (contentRemaining input.Content))
              crcHeader))) := by
  obtain ⟨hk, cls, hsel⟩ := selectRetry_ok_of_seekSucceeds input.Content hseek
  constructor
  · intro hcrc
    constructor
    · rw [uploadPartV2_run cli input oracle retries hnames hpn hup,
          uploadPartV2Core_eq cli input oracle retries hk cls hsel,
          runAttempts_first_succeeds oracle cls hk input.ContentLength retries _
            etag crcHeader hfirst]
      have hchk : (consume ⟨input.Content, if cli.enableCRC then some 0 else none⟩
          (remainingSize ⟨input.Content, if cli.enableCRC then some 0 else none⟩)).checker
          = none := consume_checker_none (by simp [hcrc]) _
      simp [uploadPartResult, hchk, checkCrc64]
    · intro oracle2 r2 a b
      rw [uploadPartV2_run cli input oracle2 r2 hnames hpn hup,
          uploadPartV2Core_eq cli input oracle2 r2 hk cls hsel]
      refine uploadPartResult_no_mismatch_of_none input _ ?_ a b
      exact runAttempts_checker_none oracle2 cls hk input.ContentLength r2 0
        ⟨input.Content, if cli.enableCRC then some 0 else none⟩ (by simp [hcrc])
  · intro hcrc
    have hchk : (consume ⟨input.Content, if cli.enableCRC then some 0 else none⟩
        (remainingSize ⟨input.Content, if cli.enableCRC then some 0 else none⟩)).checker
        = some (crcUpdate 0 (contentRemaining input.Content)) := by
      rw [consume_all]
      simp [hcrc]
    constructor
    · intro hmatch
      rw [uploadPartV2_run cli input oracle retries hnames hpn hup,
          uploadPartV2Core_eq cli input oracle retries hk cls hsel,
          runAttempts_first_succeeds oracle cls hk input.ContentLength retries _
            etag crcHeader hfirst]
      simp [uploadPartResult, hchk, checkCrc64, hmatch]
    · intro hmismatch
      rw [uploadPartV2_run cli input oracle retries hnames hpn hup,
          uploadPartV2Core_eq cli input oracle retries hk cls hsel,
          runAttempts_first_succeeds oracle cls hk input.ContentLength retries _
            etag crcHeader hfirst]
      simp [uploadPartResult, hchk, checkCrc64, hmismatch]

/-- Witness for C5: the spec's own example shape — part number 3, a
three-byte seekable source, the server echoing entity tag `"abc123"` and
the matching checksum — succeeds returning that checksum. -/
theorem uploadPartV2_checksum_verification_witness :
    (uploadPartV2 ⟨true⟩
        (some ⟨"b", "k", "u", 3, some ⟨[1, 2, 3], 0, true, false, true⟩, 3⟩)
        (fun _ => .succeeds "abc123" (crc64 [1, 2, 3])) 2).1 =
      .ok ⟨3, "abc123", crc64 [1, 2, 3]⟩ :=
  ((uploadPartV2_checksum_verification ⟨true⟩
      ⟨"b", "k", "u", 3, some ⟨[1, 2, 3], 0, true, false, true⟩, 3⟩
      (fun _ => .succeeds "abc123" (crc64 [1, 2, 3])) 2 "abc123" (crc64 [1, 2, 3])
      (by decide) (by decide) (by decide) rfl rfl).2 rfl).1 rfl

/-- An input that supplies no content length (zero) over a three-byte
buffer-backed source whose size is structurally known. -/
def zeroLenInput : UploadPartV2Input :=
  ⟨"b", "k", "u", 1, some ⟨[1, 2, 3], 0, false, false, true⟩, 0⟩

/-- C7 counterexample: with an unsupplied (zero) content length over a
three-byte source, the length resolves structurally to 3 and that resolved
value is handed to the content wrapper — but the network request still
declares the original zero, not the resolved length. -/
theorem uploadPartV2_transport_length_counterexample :
    tryResolveLength zeroLenInput.Content = 3 ∧
    (uploadPartV2 ⟨false⟩ (some zeroLenInput) alwaysSucceedOracle 0).2 =
      [.wrapped 3, .request 0] := by
  constructor
  · rfl
  · rfl

/-- C7 (amended): when the input's content length is not supplied (zero),
`UploadPartV2` resolves the length structurally from the byte source, but
the resolved value only parameterizes the content wrapper; every network
request declares the caller-supplied `input.ContentLength` (zero)
unchanged. -/
theorem uploadPartV2_resolved_length_to_wrapper_only
    (cli : ClientCfg) (input : UploadPartV2Input) (oracle : Nat → AttemptPlan)
    (retries : Nat) (c : Content)
    (hnames : isValidNames input.Bucket input.Key = true)
    (hpn : input.PartNumber ≠ 0) (hup : input.UploadID ≠ "")
    (hc : input.Content = some c)
    (hseek : seekSucceeds input.Content = true)
    (hzero : input.ContentLength = 0) :
    Event.wrapped (tryResolveLength input.Content) ∈
      (uploadPartV2 cli (some input) oracle retries).2 ∧
    ∀ d, Event.request d ∈ (uploadPartV2 cli (some input) oracle retries).2 →
      d = input.ContentLength := by
  obtain ⟨hk, cls, hsel⟩ := selectRetry_ok_of_seekSucceeds input.Content hseek
  rw [uploadPartV2_run cli input oracle retries hnames hpn hup,
      uploadPartV2Core_eq cli input oracle retries hk cls hsel]
  constructor
  · rw [hc]
    have hup2 : (if input.ContentLength == 0 then tryResolveLength (some c)
        else input.ContentLength) = tryResolveLength (some c) := by
      simp [hzero]
    rw [hup2]
    exact List.mem_append_left _ (List.mem_singleton.mpr rfl)
  · intro d hd
    rcases List.mem_append.mp hd with h | h
    · rw [hc] at h
      simp at h
    · have h2 := runAttempts_trace_all oracle cls hk input.ContentLength retries 0
        ⟨input.Content, if cli.enableCRC then some 0 else none⟩ (Event.request d) h
      simpa using h2

/-- Witness for C7 (amended) at the concrete zero-length input. -/
theorem uploadPartV2_resolved_length_to_wrapper_only_witness :
    Event.wrapped (tryResolveLength zeroLenInput.Content) ∈
      (uploadPartV2 ⟨false⟩ (some zeroLenInput) alwaysSucceedOracle 0).2 ∧
    ∀ d, Event.request d ∈ (uploadPartV2 ⟨false⟩ (some zeroLenInput) alwaysSucceedOracle 0).2 →
      d = zeroLenInput.ContentLength :=
  uploadPartV2_resolved_length_to_wrapper_only ⟨false⟩ zeroLenInput alwaysSucceedOracle 0
    ⟨[1, 2, 3], 0, false, false, true⟩ (by decide) (by decide) (by decide) rfl rfl rfl

/-- C8 counterexample: aborting a session whose server answers 404 ("not
found", the session no longer exists) returns the transport error carrying
that status, not success. -/
theorem abortMultipartUpload_not_found_counterexample :
    abortMultipartUpload ⟨"b", "k", "u"⟩ (fun _ => 404) 3 = .err (.statusError 404) ∧
    (GoResult.err (.statusError 404) : GoResult Unit) ≠ .ok () := by
  constructor
  · rfl
  · decide

/-- C8 (amended): `AbortMultipartUpload` treats only a 204 No Content
response as success; when the server signals "not found" (404) because the
session was already aborted or completed, the error is surfaced to the
caller (and not retried, 404 being outside the server-fault class); it is
not converted into a harmless no-op success. -/
theorem abortMultipartUpload_surfaces_not_found
    (input : AbortMultipartUploadInput) (statuses : Nat → Nat) (retries : Nat)
    (hnames : isValidNames input.Bucket input.Key = true)
    (h404 : statuses 0 = 404) :
    abortMultipartUpload input statuses retries = .err (.statusError 404) := by
  unfold abortMultipartUpload
  simp only [hnames, Bool.not_true, Bool.false_eq_true, if_false]
  cases retries with
  | zero =>
    unfold abortAttempts
    simp [h404]
  | succ r =>
    unfold abortAttempts
    simp [h404, isRetryable]

/-- Witness for C8 (amended) at a concrete always-404 server. -/
theorem abortMultipartUpload_surfaces_not_found_witness :
    abortMultipartUpload ⟨"b", "k", "u"⟩ (fun _ => 404) 2 = .err (.statusError 404) :=
  abortMultipartUpload_surfaces_not_found ⟨"b", "k", "u"⟩ (fun _ => 404) 2
    (by decide) rfl
